import Mathlib

/-!
Shallow embedding of the connection-and-trust core of `ssl/ssl_lib.c`:
the DANE/TLSA engine, the session cache glue, the early-data entry
points, and connection duplication.  External collaborators (digest
provider, DER decoders, allocator) are modelled as explicit oracle
inputs; machine integers are `Nat`/`Int` with the relevant bounds made
explicit.
-/

/-! ## DANE protocol constants (RFC 6698 field ranges, OpenSSL dane headers) -/

/-- DANE-EE(3) is the numerically largest certificate usage. -/
def DANETLS_USAGE_LAST : Nat := 3

/-- SPKI(1) is the numerically largest selector. -/
def DANETLS_SELECTOR_LAST : Nat := 1

def DANETLS_MATCHING_FULL : Nat := 0
def DANETLS_MATCHING_2256 : Nat := 1
def DANETLS_MATCHING_2512 : Nat := 2
def DANETLS_MATCHING_LAST : Nat := 2

def DANETLS_USAGE_PKIX_TA : Nat := 0
def DANETLS_USAGE_DANE_TA : Nat := 2
def DANETLS_SELECTOR_CERT : Nat := 0
def DANETLS_SELECTOR_SPKI : Nat := 1

/-- DANETLS_USAGE_BIT(u) = 1 << u. -/
def DANETLS_USAGE_BIT (u : Nat) : Nat := 2 ^ u

/-- Bitmask of the trust-anchor usages PKIX-TA(0) and DANE-TA(2). -/
def DANETLS_TA_MASK : Nat :=
  DANETLS_USAGE_BIT DANETLS_USAGE_PKIX_TA ||| DANETLS_USAGE_BIT DANETLS_USAGE_DANE_TA

/-- Bound for the `(int)dlen` cast check in `dane_tlsa_add` (32-bit int). -/
def INT_MAX : Nat := 2 ^ 31 - 1

/-! ## Trust-anchor registry (struct dane_ctx_st) -/

/-- `struct dane_ctx_st`: `mdevp` maps a matching-type ordinal to the
registered digest, modelled by its output size (`EVP_MD_get_size`);
`mdord` maps it to its verification-priority ordinal; `mdmax` is the
largest ordinal the two tables cover. -/
structure DaneCtx where
  mdevp : List (Option Nat)
  mdord : List Nat
  mdmax : Nat
deriving Repr, DecidableEq

/-- `dane_ctx_enable`: builds the default registry with the three built-in
matching types.  The digest provider (`EVP_get_digestbynid`) is an external
collaborator; `sha256` / `sha512` are its results (digest output size, or
`none` when the digest is unavailable) for `NID_sha256` / `NID_sha512`.
Matching type Full(0) has `NID_undef`, so its zero-filled slot is kept. -/
def dane_ctx_enable (sha256 sha512 : Option Nat) : DaneCtx :=
  { mdevp := [none, sha256, sha512]
    mdord := [0, if sha256.isSome then 1 else 0, if sha512.isSome then 2 else 0]
    mdmax := DANETLS_MATCHING_LAST }

/-- `tlsa_md_get`: look up the digest registered for a matching type. -/
def tlsa_md_get (dctx : DaneCtx) (mtype : Nat) : Option Nat :=
  if mtype > dctx.mdmax then none else dctx.mdevp.getD mtype none

/-! ## TLSA records and per-connection DANE state -/

/-- `danetls_record`: one validated TLSA assertion.  `data` is the copied
byte blob (`t->data` / `t->dlen`); `spki` records whether the parsed bare
public key was retained on the record (`t->spki != NULL`). -/
structure DanetlsRecord where
  usage : Nat
  selector : Nat
  mtype : Nat
  data : List Nat
  spki : Bool
deriving Repr, DecidableEq

/-- A raw TLSA `data` argument together with the external DER decoder
collaborator's verdicts on that byte string: how many bytes `d2i_X509` /
`d2i_PUBKEY` would consume (`none` when the parse fails), and whether
`X509_get0_pubkey` can extract a key from the parsed certificate. -/
structure TlsaData where
  bytes : List Nat
  certConsumed : Option Nat
  certHasPubkey : Bool
  pkeyConsumed : Option Nat
deriving Repr, DecidableEq

/-- `SSL_DANE`: per-connection DANE engine state.  `trecs = none` models the
NULL (never enabled) record list; `certs` is the auxiliary trust-anchor
certificate list (certificates modelled by their DER bytes); `umask` is the
bitmask of usages present. -/
structure SSLDane where
  dctx : DaneCtx
  trecs : Option (List DanetlsRecord)
  certs : List (List Nat)
  umask : Nat
  mdpth : Int
  pdpth : Int
deriving Repr, DecidableEq

/-- Failure reasons `dane_tlsa_add` can raise. -/
inductive DaneErr where
  | notEnabled
  | badDataLength
  | badUsage
  | badSelector
  | badMatchingType
  | badDigestLength
  | nullData
  | badCert
  | badPkey
  | allocFailure
deriving Repr, DecidableEq

/-- The C `int` return value `dane_tlsa_add` produces for each outcome:
1 on success, -1 when DANE is not enabled or an allocation fails,
0 on every validation failure. -/
def daneRet : Except DaneErr Unit → Int
  | .ok _ => 1
  | .error .notEnabled => -1
  | .error .allocFailure => -1
  | .error _ => 0

/-- Outcomes of the individual allocation sites in `dane_tlsa_add`
(`true` = the allocation succeeds). -/
structure DaneAllocOracle where
  zallocRec : Bool
  mallocData : Bool
  pushCert : Bool
  insertRec : Bool
deriving Repr, DecidableEq

/-- The insertion scan of `dane_tlsa_add`: walk the stored list skipping
records whose `(usage, selector, mdord[mtype])` key is strictly greater in
descending lexicographic order, and insert the new record in front of the
first record that is not strictly greater (hence in front of any record
whose three keys are all equal). -/
def daneRecInsert (ordf : Nat → Nat) (t : DanetlsRecord) :
    List DanetlsRecord → List DanetlsRecord
  | [] => [t]
  | r :: rest =>
    if r.usage > t.usage then r :: daneRecInsert ordf t rest
    else if r.usage < t.usage then t :: r :: rest
    else if r.selector > t.selector then r :: daneRecInsert ordf t rest
    else if r.selector < t.selector then t :: r :: rest
    else if ordf r.mtype > ordf t.mtype then r :: daneRecInsert ordf t rest
    else t :: r :: rest

/-- The registry priority function a DANE state uses during insertion:
`dane->dctx->mdord[mtype]`. -/
def daneOrd (dane : SSLDane) : Nat → Nat := fun m => dane.dctx.mdord.getD m 0

/-- Final step of `dane_tlsa_add`: `sk_danetls_record_insert` at the scanned
position (may fail on allocation), then `dane->umask |= DANETLS_USAGE_BIT`. -/
def daneFinishInsert (dane : SSLDane) (recs : List DanetlsRecord)
    (t : DanetlsRecord) (usage : Nat) (alloc : DaneAllocOracle) :
    Except DaneErr Unit × SSLDane :=
  if ¬ alloc.insertRec then (.error .allocFailure, dane)
  else (.ok (),
    { dane with
      trecs := some (daneRecInsert (daneOrd dane) t recs)
      umask := dane.umask ||| DANETLS_USAGE_BIT usage })

/-- Validation chain of `dane_tlsa_add`: the length-cast check
(`ilen < 0 || dlen != (size_t)ilen`, which fires exactly when `dlen`
exceeds `INT_MAX`), the usage, selector and matching-type checks, and the
digest-length check for a non-Full matching type, in source order.
Returns the first failure, or `none` when all checks pass. -/
def dane_tlsa_validate (dctx : DaneCtx) (usage selector mtype dlen : Nat) :
    Option DaneErr :=
  if dlen > INT_MAX then some .badDataLength
  else if usage > DANETLS_USAGE_LAST then some .badUsage
  else if selector > DANETLS_SELECTOR_LAST then some .badSelector
  else if mtype ≠ DANETLS_MATCHING_FULL ∧ tlsa_md_get dctx mtype = none then
    some .badMatchingType
  else if mtype ≠ DANETLS_MATCHING_FULL ∧
      ((tlsa_md_get dctx mtype).getD 0 = 0 ∨
        dlen ≠ (tlsa_md_get dctx mtype).getD 0) then
    some .badDigestLength
  else none

/-- Matching-type Full(0) branch of `dane_tlsa_add`: run the DER decoder
collaborator (`d2i_X509` / `d2i_PUBKEY`, which must consume exactly `dlen`
bytes; a certificate must have an extractable public key), then compute the
two state effects of that branch: for a trust-anchor usage with selector
Cert the parsed certificate is appended to `dane->certs`; for usage
DANE-TA(2) with selector SPKI the parsed bare key is retained on the
record.  For end-entity usages the parsed object is discarded and only the
raw bytes are kept.  Returns the (possibly spki-carrying) record together
with the new aux certificate list, or the failure. -/
def dane_tlsa_full (dane : SSLDane) (usage selector : Nat) (d : TlsaData)
    (dlen : Nat) (t : DanetlsRecord) (alloc : DaneAllocOracle) :
    Except DaneErr (DanetlsRecord × List (List Nat)) :=
  if selector = DANETLS_SELECTOR_CERT then
    if d.certConsumed ≠ some dlen then .error .badCert
    else if ¬ d.certHasPubkey then .error .badCert
    else if DANETLS_USAGE_BIT usage &&& DANETLS_TA_MASK = 0 then
      -- end-entity usage: X509_free(cert), keep only the raw bytes
      .ok (t, dane.certs)
    else if ¬ alloc.pushCert then .error .allocFailure
    else .ok (t, dane.certs ++ [d.bytes])
  else
    if d.pkeyConsumed ≠ some dlen then .error .badPkey
    else if usage = DANETLS_USAGE_DANE_TA then .ok ({ t with spki := true }, dane.certs)
    else .ok (t, dane.certs)

/-- `dane_tlsa_add` (ssl_lib.c): validate one TLSA record against the
registry, for matching type Full(0) run the DER decoders and apply that
branch's state effects, then splice the record into the stored list in
verification order.  `data = none` models a NULL data pointer; `dlen` is
passed separately, exactly as in C. -/
def dane_tlsa_add (dane : SSLDane) (usage selector mtype : Nat)
    (data : Option TlsaData) (dlen : Nat) (alloc : DaneAllocOracle) :
    Except DaneErr Unit × SSLDane :=
  match dane.trecs with
  | none => (.error .notEnabled, dane)
  | some recs =>
    match dane_tlsa_validate dane.dctx usage selector mtype dlen with
    | some e => (.error e, dane)
    | none =>
      match data with
      | none => (.error .nullData, dane)
      | some d =>
        -- OPENSSL_zalloc(sizeof *t), then OPENSSL_malloc(dlen) + memcpy
        if ¬ alloc.zallocRec then (.error .allocFailure, dane)
        else if ¬ alloc.mallocData then (.error .allocFailure, dane)
        else
          match (if mtype = DANETLS_MATCHING_FULL then
                  dane_tlsa_full dane usage selector d dlen
                    { usage := usage, selector := selector, mtype := mtype,
                      data := d.bytes.take dlen, spki := false } alloc
                 else
                  .ok ({ usage := usage, selector := selector, mtype := mtype,
                         data := d.bytes.take dlen, spki := false },
                       dane.certs)) with
          | .error e => (.error e, dane)
          | .ok (t, certs) =>
            daneFinishInsert { dane with certs := certs } recs t usage alloc

/-- The per-connection DANE state right after a successful
`SSL_dane_enable`: empty record list, no verification result. -/
def daneEnableFresh (dctx : DaneCtx) : SSLDane :=
  { dctx := dctx, trecs := some [], certs := [], umask := 0,
    mdpth := -1, pdpth := -1 }

/-- One queued `SSL_dane_tlsa_add` request, with its oracles. -/
structure TlsaReq where
  usage : Nat
  selector : Nat
  mtype : Nat
  data : Option TlsaData
  dlen : Nat
  alloc : DaneAllocOracle
deriving Repr, DecidableEq

/-- Fold a sequence of `dane_tlsa_add` calls over a DANE state. -/
def runTlsaAdds (dane : SSLDane) : List TlsaReq → SSLDane
  | [] => dane
  | q :: qs =>
    runTlsaAdds (dane_tlsa_add dane q.usage q.selector q.mtype q.data q.dlen q.alloc).2 qs

/-! ## Sort order of the stored record list -/

/-- The three-component verification-order key of a record. -/
def recKey (ordf : Nat → Nat) (t : DanetlsRecord) : Nat × Nat × Nat :=
  (t.usage, t.selector, ordf t.mtype)

/-- Lexicographic order on keys. -/
def keyLe (a b : Nat × Nat × Nat) : Prop :=
  a.1 < b.1 ∨ (a.1 = b.1 ∧ (a.2.1 < b.2.1 ∨ (a.2.1 = b.2.1 ∧ a.2.2 ≤ b.2.2)))

/-- The stored list is sorted by descending usage, then descending selector,
then descending registry priority of the matching type. -/
def sortedDesc (ordf : Nat → Nat) (l : List DanetlsRecord) : Prop :=
  l.Pairwise (fun a b => keyLe (recKey ordf b) (recKey ordf a))

theorem keyLe_trans {a b c : Nat × Nat × Nat} (h1 : keyLe a b) (h2 : keyLe b c) :
    keyLe a c := by
  obtain ⟨a1, a2, a3⟩ := a
  obtain ⟨b1, b2, b3⟩ := b
  obtain ⟨c1, c2, c3⟩ := c
  simp only [keyLe] at *
  omega

theorem mem_daneRecInsert {ordf : Nat → Nat} {t x : DanetlsRecord}
    {l : List DanetlsRecord} (h : x ∈ daneRecInsert ordf t l) : x = t ∨ x ∈ l := by
  induction l with
  | nil => simpa [daneRecInsert] using h
  | cons r rest ih =>
    simp only [daneRecInsert] at h
    split_ifs at h <;> simp only [List.mem_cons] at h ⊢ <;> tauto

/-- Inserting through the `dane_tlsa_add` scan preserves descending
sortedness of the stored list. -/
theorem daneRecInsert_sorted (ordf : Nat → Nat) (t : DanetlsRecord)
    {l : List DanetlsRecord} (h : sortedDesc ordf l) :
    sortedDesc ordf (daneRecInsert ordf t l) := by
  induction l with
  | nil => simp [daneRecInsert, sortedDesc]
  | cons r rest ih =>
    rw [sortedDesc, List.pairwise_cons] at h
    obtain ⟨hr, hrest⟩ := h
    simp only [daneRecInsert]
    split_ifs with h1 h2 h3 h4 h5
    · -- r.usage > t.usage: keep scanning
      rw [sortedDesc, List.pairwise_cons]
      refine ⟨fun b hb => ?_, ih hrest⟩
      rcases mem_daneRecInsert hb with hb | hb
      · subst hb; simp only [keyLe, recKey]; omega
      · exact hr b hb
    · -- r.usage < t.usage: insert in front
      rw [sortedDesc, List.pairwise_cons]
      refine ⟨fun b hb => ?_, List.Pairwise.cons hr hrest⟩
      rcases List.mem_cons.mp hb with hb | hb
      · subst hb; simp only [keyLe, recKey]; omega
      · refine keyLe_trans (hr b hb) ?_
        simp only [keyLe, recKey]; omega
    · -- equal usage, r.selector > t.selector: keep scanning
      rw [sortedDesc, List.pairwise_cons]
      refine ⟨fun b hb => ?_, ih hrest⟩
      rcases mem_daneRecInsert hb with hb | hb
      · subst hb; simp only [keyLe, recKey]; omega
      · exact hr b hb
    · -- equal usage, r.selector < t.selector: insert in front
      rw [sortedDesc, List.pairwise_cons]
      refine ⟨fun b hb => ?_, List.Pairwise.cons hr hrest⟩
      rcases List.mem_cons.mp hb with hb | hb
      · subst hb; simp only [keyLe, recKey]; omega
      · refine keyLe_trans (hr b hb) ?_
        simp only [keyLe, recKey]; omega
    · -- equal usage and selector, greater priority: keep scanning
      rw [sortedDesc, List.pairwise_cons]
      refine ⟨fun b hb => ?_, ih hrest⟩
      rcases mem_daneRecInsert hb with hb | hb
      · subst hb; simp only [keyLe, recKey]; omega
      · exact hr b hb
    · -- not strictly greater: insert in front (also in front of exact ties)
      rw [sortedDesc, List.pairwise_cons]
      refine ⟨fun b hb => ?_, List.Pairwise.cons hr hrest⟩
      rcases List.mem_cons.mp hb with hb | hb
      · subst hb; simp only [keyLe, recKey]; omega
      · refine keyLe_trans (hr b hb) ?_
        simp only [keyLe, recKey]; omega

/-! ## Behaviour of dane_tlsa_add as a state transformer -/

theorem daneFinishInsert_dctx (dane : SSLDane) (recs : List DanetlsRecord)
    (t : DanetlsRecord) (u : Nat) (a : DaneAllocOracle) :
    (daneFinishInsert dane recs t u a).2.dctx = dane.dctx := by
  unfold daneFinishInsert
  split <;> rfl

/-- `daneFinishInsert` either fails on allocation leaving the state alone, or
replaces the record list by the scanned insertion. -/
theorem daneFinishInsert_spec (dane : SSLDane) (recs : List DanetlsRecord)
    (t : DanetlsRecord) (u : Nat) (a : DaneAllocOracle) :
    daneFinishInsert dane recs t u a = (.error .allocFailure, dane) ∨
    daneFinishInsert dane recs t u a =
      (.ok (),
        { dane with
          trecs := some (daneRecInsert (daneOrd dane) t recs)
          umask := dane.umask ||| DANETLS_USAGE_BIT u }) := by
  unfold daneFinishInsert
  split
  · exact .inl rfl
  · exact .inr rfl

/-- Case analysis of `dane_tlsa_add`: the registry is never touched, and the
record list is either left unchanged (on every failure) or extended by one
scanned insertion (on success). -/
theorem dane_tlsa_add_spec (dane : SSLDane) (u s m : Nat) (data : Option TlsaData)
    (dl : Nat) (a : DaneAllocOracle) :
    (dane_tlsa_add dane u s m data dl a).2.dctx = dane.dctx ∧
    (((dane_tlsa_add dane u s m data dl a).1 = .ok () ∧
       ∃ recs t, dane.trecs = some recs ∧
         (dane_tlsa_add dane u s m data dl a).2.trecs =
           some (daneRecInsert (daneOrd dane) t recs)) ∨
     ((dane_tlsa_add dane u s m data dl a).1 ≠ .ok () ∧
       (dane_tlsa_add dane u s m data dl a).2.trecs = dane.trecs)) := by
  unfold dane_tlsa_add
  repeat' split
  all_goals try exact ⟨rfl, .inr ⟨by simp, rfl⟩⟩
  rename_i x2 recs hrecs x1 hval dataX d hz hm x t certs hfull
  rcases daneFinishInsert_spec { dane with certs := certs } recs t u a with hEq | hEq
  · rw [hEq]
    exact ⟨rfl, .inr ⟨by simp, rfl⟩⟩
  · rw [hEq]
    exact ⟨rfl, .inl ⟨rfl, recs, t, hrecs, rfl⟩⟩

theorem dane_tlsa_add_dctx (dane : SSLDane) (u s m : Nat) (data : Option TlsaData)
    (dl : Nat) (a : DaneAllocOracle) :
    (dane_tlsa_add dane u s m data dl a).2.dctx = dane.dctx :=
  (dane_tlsa_add_spec dane u s m data dl a).1

theorem dane_tlsa_add_daneOrd (dane : SSLDane) (u s m : Nat) (data : Option TlsaData)
    (dl : Nat) (a : DaneAllocOracle) :
    daneOrd (dane_tlsa_add dane u s m data dl a).2 = daneOrd dane := by
  funext k
  unfold daneOrd
  rw [dane_tlsa_add_dctx]

/-- One `dane_tlsa_add` call preserves descending sortedness of the record
list (with respect to the state's registry priorities). -/
theorem dane_tlsa_add_sorted (dane : SSLDane) (u s m : Nat) (data : Option TlsaData)
    (dl : Nat) (a : DaneAllocOracle)
    (hs : ∀ l, dane.trecs = some l → sortedDesc (daneOrd dane) l) :
    ∀ l, (dane_tlsa_add dane u s m data dl a).2.trecs = some l →
      sortedDesc (daneOrd dane) l := by
  rcases (dane_tlsa_add_spec dane u s m data dl a).2 with
    ⟨_, recs, t, hrecs, htr⟩ | ⟨_, htr⟩
  · intro l hl
    rw [htr] at hl
    injection hl with hl
    rw [← hl]
    exact daneRecInsert_sorted _ _ (hs recs hrecs)
  · intro l hl
    rw [htr] at hl
    exact hs l hl

/-- Sortedness of the record list is an invariant of arbitrary sequences of
`dane_tlsa_add` calls. -/
theorem runTlsaAdds_sorted (reqs : List TlsaReq) (dane : SSLDane)
    (hs : ∀ l, dane.trecs = some l → sortedDesc (daneOrd dane) l) :
    ∀ l, (runTlsaAdds dane reqs).trecs = some l → sortedDesc (daneOrd dane) l := by
  induction reqs generalizing dane with
  | nil => exact hs
  | cons q qs ih =>
    intro l hl
    simp only [runTlsaAdds] at hl
    have h1 := dane_tlsa_add_sorted dane q.usage q.selector q.mtype q.data q.dlen q.alloc hs
    have hOrd := dane_tlsa_add_daneOrd dane q.usage q.selector q.mtype q.data q.dlen q.alloc
    have h2 : ∀ l', (dane_tlsa_add dane q.usage q.selector q.mtype q.data q.dlen q.alloc).2.trecs
        = some l' →
        sortedDesc (daneOrd (dane_tlsa_add dane q.usage q.selector q.mtype q.data q.dlen q.alloc).2) l' := by
      rw [hOrd]; exact h1
    have h3 := ih _ h2 l hl
    rwa [hOrd] at h3

/-! ## Concrete inputs used by witnesses and counterexamples -/

/-- The registry a context gets from `dane_ctx_enable` when both standard
digests are available (sha2-256 of size 32, sha2-512 of size 64). -/
def defaultDaneCtx : DaneCtx := dane_ctx_enable (some 32) (some 64)

/-- All allocation sites succeed. -/
def allocOk : DaneAllocOracle := ⟨true, true, true, true⟩

/-- A 32-byte digest blob of zeros (no DER parse needed for mtype 1). -/
def sha256DataA : TlsaData := ⟨List.replicate 32 0, none, false, none⟩

/-- A 32-byte digest blob of ones. -/
def sha256DataB : TlsaData := ⟨List.replicate 32 1, none, false, none⟩

/-- Insert (usage 3, selector 1, matching type sha2-256, blob A). -/
def reqA : TlsaReq := ⟨3, 1, 1, some sha256DataA, 32, allocOk⟩

/-- Insert (usage 3, selector 1, matching type sha2-256, blob B): the same
three sort keys as `reqA` but different data. -/
def reqB : TlsaReq := ⟨3, 1, 1, some sha256DataB, 32, allocOk⟩

/-! ## Claim C1 -/

/-- Claim C1 (corrected), amended part: after any sequence of
`addTlsaRecord` calls on a freshly enabled DANE state, the stored record
sequence is sorted by descending usage, then descending selector, then
descending registry priority ordinal of the matching type. -/
theorem dane_record_list_sorted_desc (dctx : DaneCtx) (reqs : List TlsaReq)
    (l : List DanetlsRecord)
    (h : (runTlsaAdds (daneEnableFresh dctx) reqs).trecs = some l) :
    sortedDesc (daneOrd (daneEnableFresh dctx)) l := by
  refine runTlsaAdds_sorted reqs (daneEnableFresh dctx) ?_ l h
  intro l0 hl0
  injection hl0 with hl0
  rw [← hl0]
  exact List.Pairwise.nil

/-- Witness for C1's amended theorem at a concrete run of two insertions. -/
theorem dane_record_list_sorted_desc_witness :
    (runTlsaAdds (daneEnableFresh defaultDaneCtx) [reqA, reqB]).trecs =
      some [⟨3, 1, 1, List.replicate 32 1, false⟩, ⟨3, 1, 1, List.replicate 32 0, false⟩] ∧
    sortedDesc (daneOrd (daneEnableFresh defaultDaneCtx))
      [⟨3, 1, 1, List.replicate 32 1, false⟩, ⟨3, 1, 1, List.replicate 32 0, false⟩] :=
  ⟨by decide,
   dane_record_list_sorted_desc defaultDaneCtx [reqA, reqB] _ (by decide)⟩

/-- Claim C1 counterexample: two successful insertions whose three sort keys
are all equal are stored in reverse submission order (the record inserted
second comes out first), so inserting the same two valid records in the two
orders yields different final sequences. -/
theorem dane_tie_order_counterexample :
    (runTlsaAdds (daneEnableFresh defaultDaneCtx) [reqA, reqB]).trecs ≠
      (runTlsaAdds (daneEnableFresh defaultDaneCtx) [reqB, reqA]).trecs ∧
    (runTlsaAdds (daneEnableFresh defaultDaneCtx) [reqA, reqB]).trecs =
      some [⟨3, 1, 1, List.replicate 32 1, false⟩, ⟨3, 1, 1, List.replicate 32 0, false⟩] ∧
    (runTlsaAdds (daneEnableFresh defaultDaneCtx) [reqB, reqA]).trecs =
      some [⟨3, 1, 1, List.replicate 32 0, false⟩, ⟨3, 1, 1, List.replicate 32 1, false⟩] := by
  decide

/-! ## Claim C2 -/

/-- Claim C2 (corrected), amended part: a successful `dane_tlsa_add` returns
the constant 1 (a positive success indicator), and a call on a connection
whose DANE was never enabled fails with NotEnabled, leaving the state
untouched. -/
theorem dane_tlsa_add_returns_one (dane : SSLDane) (u s m : Nat)
    (data : Option TlsaData) (dl : Nat) (a : DaneAllocOracle) :
    ((dane_tlsa_add dane u s m data dl a).1 = .ok () →
      daneRet (dane_tlsa_add dane u s m data dl a).1 = 1) ∧
    (dane.trecs = none →
      dane_tlsa_add dane u s m data dl a = (.error .notEnabled, dane)) := by
  constructor
  · intro h
    rw [h]
    rfl
  · intro h
    unfold dane_tlsa_add
    rw [h]

/-- Witness for C2's amended theorem: a concrete successful insertion
returns 1, and a concrete never-enabled state fails with NotEnabled. -/
theorem dane_tlsa_add_returns_one_witness :
    daneRet (dane_tlsa_add (daneEnableFresh defaultDaneCtx) 3 1 1
      (some sha256DataA) 32 allocOk).1 = 1 ∧
    dane_tlsa_add { daneEnableFresh defaultDaneCtx with trecs := none } 3 1 1
        (some sha256DataA) 32 allocOk =
      (.error .notEnabled, { daneEnableFresh defaultDaneCtx with trecs := none }) :=
  ⟨(dane_tlsa_add_returns_one (daneEnableFresh defaultDaneCtx) 3 1 1
      (some sha256DataA) 32 allocOk).1 (by rfl),
   (dane_tlsa_add_returns_one { daneEnableFresh defaultDaneCtx with trecs := none }
      3 1 1 (some sha256DataA) 32 allocOk).2 rfl⟩

/-- Claim C2 counterexample: a second successful insertion still returns 1
while the stored record count is 2 — the return value is not the new record
count. -/
theorem dane_tlsa_add_count_counterexample :
    daneRet (dane_tlsa_add
      (dane_tlsa_add (daneEnableFresh defaultDaneCtx) 3 1 1 (some sha256DataA) 32 allocOk).2
      3 1 1 (some sha256DataB) 32 allocOk).1 = 1 ∧
    ((dane_tlsa_add
      (dane_tlsa_add (daneEnableFresh defaultDaneCtx) 3 1 1 (some sha256DataA) 32 allocOk).2
      3 1 1 (some sha256DataB) 32 allocOk).2.trecs.getD []).length = 2 ∧
    daneRet (dane_tlsa_add
      (dane_tlsa_add (daneEnableFresh defaultDaneCtx) 3 1 1 (some sha256DataA) 32 allocOk).2
      3 1 1 (some sha256DataB) 32 allocOk).1 ≠
      (((dane_tlsa_add
        (dane_tlsa_add (daneEnableFresh defaultDaneCtx) 3 1 1 (some sha256DataA) 32 allocOk).2
        3 1 1 (some sha256DataB) 32 allocOk).2.trecs.getD []).length : Int) := by
  refine ⟨by decide, by decide, ?_⟩
  decide

/-! ## Claim C5 -/

/-- Claim C5 (confirmed): every failing `dane_tlsa_add` call — not enabled,
bad usage/selector/matching type, bad data or digest length, NULL data,
malformed certificate or public key, or allocation failure at any site —
leaves the DANE record list exactly unchanged. -/
theorem dane_tlsa_add_failure_preserves_trecs (dane : SSLDane) (u s m : Nat)
    (data : Option TlsaData) (dl : Nat) (a : DaneAllocOracle) (e : DaneErr)
    (h : (dane_tlsa_add dane u s m data dl a).1 = .error e) :
    (dane_tlsa_add dane u s m data dl a).2.trecs = dane.trecs := by
  rcases (dane_tlsa_add_spec dane u s m data dl a).2 with ⟨hok, _⟩ | ⟨_, htr⟩
  · rw [h] at hok
    exact absurd hok (by simp)
  · exact htr

/-- Witness for C5 at a concrete failing input (usage 4 is out of range). -/
theorem dane_tlsa_add_failure_preserves_trecs_witness :
    (dane_tlsa_add (daneEnableFresh defaultDaneCtx) 4 0 0 none 0 allocOk).1 =
      .error .badUsage ∧
    (dane_tlsa_add (daneEnableFresh defaultDaneCtx) 4 0 0 none 0 allocOk).2.trecs =
      (daneEnableFresh defaultDaneCtx).trecs :=
  ⟨by rfl,
   dane_tlsa_add_failure_preserves_trecs (daneEnableFresh defaultDaneCtx)
     4 0 0 none 0 allocOk .badUsage (by rfl)⟩

/-! ## SSL_dane_enable (claim C4) -/

/-- The slice of per-connection state `SSL_dane_enable` reads and writes:
`ctxMdmax` is `s->ctx->dane.mdmax` (nonzero iff the factory registry is
enabled), `hostname` is `sc->ext.hostname` (the SNI hint), `paramHost` the
primary reference identifier inside `sc->param`. -/
structure DaneEnableConn where
  ctxMdmax : Nat
  hostname : Option (List Nat)
  paramHost : Option (List Nat)
  dane : SSLDane
deriving Repr, DecidableEq

/-- Success of the three fallible inner steps of `SSL_dane_enable`. -/
structure DaneEnableOracle where
  setHostnameOk : Bool
  setParamOk : Bool
  newRecsOk : Bool
deriving Repr, DecidableEq

/-- Modelled from the spec: `SSL_set_tlsext_host_name` is implemented
outside this repository (an SSL_ctrl in another translation unit); per the
spec it sets the default peer-identity hint (SNI), rejecting empty names;
it may also fail on resource exhaustion (the oracle).  Returns the updated
hostname on success. -/
def SSL_set_tlsext_host_name (basedomain : List Nat) (ok : Bool) :
    Option (Option (List Nat)) :=
  if basedomain ≠ [] ∧ ok then some (some basedomain) else none

/-- Modelled from the spec: `X509_VERIFY_PARAM_set1_host` lives in the
certificate-verification collaborator; it sets the certificate-verification
primary reference identifier to `baseDomain` (accepting empty names) and
can fail only on resource exhaustion (the oracle). -/
def X509_VERIFY_PARAM_set1_host (basedomain : List Nat) (ok : Bool) :
    Option (Option (List Nat)) :=
  if ok then some (some basedomain) else none

/-- `SSL_dane_enable` (ssl_lib.c): require the factory registry enabled and
this connection not yet enabled; set the default SNI name first (only when
none is set), then the primary reference identifier, then reset the
verification depths and allocate the empty record list.  Returns the C int
result paired with the updated connection slice. -/
def SSL_dane_enable (s : DaneEnableConn) (basedomain : List Nat)
    (o : DaneEnableOracle) : Int × DaneEnableConn :=
  if s.ctxMdmax = 0 then (0, s)
  else if s.dane.trecs.isSome then (0, s)
  else
    match (if s.hostname.isNone then SSL_set_tlsext_host_name basedomain o.setHostnameOk
           else some s.hostname) with
    | none => (-1, s)
    | some hn =>
      let s1 := { s with hostname := hn }
      match X509_VERIFY_PARAM_set1_host basedomain o.setParamOk with
      | none => (-1, s1)
      | some ph =>
        let s2 := { s1 with
                    paramHost := ph
                    dane := { s1.dane with mdpth := -1, pdpth := -1 } }
        if ¬ o.newRecsOk then (-1, s2)
        else (1, { s2 with dane := { s2.dane with trecs := some [] } })

/-- Claim C4 (corrected), amended part: whenever `SSL_dane_enable` fails,
the connection's DANE record list is exactly as before — the connection is
never left partially (or fully) DANE-enabled by a failed call. -/
theorem dane_enable_failure_not_enabled (s : DaneEnableConn)
    (basedomain : List Nat) (o : DaneEnableOracle)
    (h : (SSL_dane_enable s basedomain o).1 ≠ 1) :
    (SSL_dane_enable s basedomain o).2.dane.trecs = s.dane.trecs := by
  revert h
  unfold SSL_dane_enable
  repeat' split
  all_goals intro h
  all_goals first | rfl | exact absurd rfl h

/-- Witness for C4's amended theorem: concrete failing call (allocation of
the record list fails) whose resulting record list is unchanged. -/
theorem dane_enable_failure_not_enabled_witness :
    (SSL_dane_enable
      ⟨2, none, none, { daneEnableFresh defaultDaneCtx with trecs := none }⟩
      [97] ⟨true, true, false⟩).1 ≠ 1 ∧
    (SSL_dane_enable
      ⟨2, none, none, { daneEnableFresh defaultDaneCtx with trecs := none }⟩
      [97] ⟨true, true, false⟩).2.dane.trecs = none :=
  ⟨by decide,
   dane_enable_failure_not_enabled
     ⟨2, none, none, { daneEnableFresh defaultDaneCtx with trecs := none }⟩
     [97] ⟨true, true, false⟩ (by decide)⟩

/-- Claim C4 counterexample: with no SNI hint set, a call whose first inner
step (setting the SNI hint) succeeds and whose second inner step (setting
the primary reference identifier) fails returns failure, yet the SNI hint
remains set — the call is not atomic in its side effects. -/
theorem dane_enable_partial_effect_counterexample :
    (SSL_dane_enable
      ⟨2, none, none, { daneEnableFresh defaultDaneCtx with trecs := none }⟩
      [97] ⟨true, false, true⟩).1 = -1 ∧
    (SSL_dane_enable
      ⟨2, none, none, { daneEnableFresh defaultDaneCtx with trecs := none }⟩
      [97] ⟨true, false, true⟩).2.hostname = some [97] := by
  decide

/-! ## Session cache: hash, compare, lookup (claims C8, C10) -/

/-- Size of the `session_id` field of `SSL_SESSION`. -/
def SSL_MAX_SSL_SESSION_ID_LENGTH : Nat := 32

/-- The cache-relevant slice of `SSL_SESSION`.  `session_id` models the
valid prefix of the fixed 32-byte id buffer (`session_id_length` is its
length); `expiry` is the absolute expiry timestamp consulted by the flush
sweep. -/
structure SSLSession where
  ssl_version : Nat
  session_id : List Nat
  sid_ctx_length : Nat
  not_resumable : Bool
  expiry : Nat
deriving Repr, DecidableEq

/-- `ssl_session_hash` (ssl_lib.c): bucket hash built from the first four
bytes of the session id, zero-padding via `tmp_storage` when the id is
shorter than four bytes. -/
def ssl_session_hash (a : SSLSession) : Nat :=
  let session_id :=
    if a.session_id.length < 4 then
      a.session_id ++ List.replicate (4 - a.session_id.length) 0
    else a.session_id
  session_id.getD 0 0 |||
    (session_id.getD 1 0 <<< 8) |||
    (session_id.getD 2 0 <<< 16) |||
    (session_id.getD 3 0 <<< 24)

/-- `memcmp` on byte strings of the same length (sign convention). -/
def memcmpBytes : List Nat → List Nat → Int
  | [], _ => 0
  | _, [] => 0
  | x :: xs, y :: ys => if x < y then -1 else if y < x then 1 else memcmpBytes xs ys

/-- `ssl_session_cmp` (ssl_lib.c): nonzero unless protocol version,
session-id length, and session-id bytes all agree. -/
def ssl_session_cmp (a b : SSLSession) : Int :=
  if a.ssl_version ≠ b.ssl_version then 1
  else if a.session_id.length ≠ b.session_id.length then 1
  else memcmpBytes a.session_id b.session_id

theorem memcmpBytes_eq_zero : ∀ {xs ys : List Nat},
    xs.length = ys.length → memcmpBytes xs ys = 0 → xs = ys
  | [], [], _, _ => rfl
  | [], _ :: _, hlen, _ => by simp at hlen
  | _ :: _, [], hlen, _ => by simp at hlen
  | x :: xs, y :: ys, hlen, h => by
    simp only [memcmpBytes] at h
    split_ifs at h with h1 h2
    · exact absurd h (by decide)
    · have hxy : x = y := by omega
      have := memcmpBytes_eq_zero (by simpa using hlen) h
      rw [hxy, this]

/-- The hash reads only the first four id bytes: sessions agreeing on
`session_id.take 4` hash alike. -/
theorem ssl_session_hash_take4 (a b : SSLSession)
    (h : a.session_id.take 4 = b.session_id.take 4) :
    ssl_session_hash a = ssl_session_hash b := by
  obtain ⟨va, la, sa, na, ea⟩ := a
  obtain ⟨vb, lb, sb, nb, eb⟩ := b
  simp only at h
  rcases la with _ | ⟨a0, _ | ⟨a1, _ | ⟨a2, _ | ⟨a3, arest⟩⟩⟩⟩ <;>
    rcases lb with _ | ⟨b0, _ | ⟨b1, _ | ⟨b2, _ | ⟨b3, brest⟩⟩⟩⟩ <;>
    simp_all [ssl_session_hash, List.take]

/-! ## Claim C8 -/

/-- Claim C8 (confirmed): sessions that compare equal (same protocol
version, same id length, identical id bytes) hash equal, and the hash is
computed from at most the first four id bytes (zero-padded when shorter):
sessions agreeing on those four bytes already hash equal. -/
theorem session_equal_implies_hash_equal (a b : SSLSession) :
    (ssl_session_cmp a b = 0 → ssl_session_hash a = ssl_session_hash b) ∧
    (a.session_id.take 4 = b.session_id.take 4 →
      ssl_session_hash a = ssl_session_hash b) := by
  constructor
  · intro h
    unfold ssl_session_cmp at h
    split_ifs at h with h1 h2
    · exact absurd h (by decide)
    · exact absurd h (by decide)
    · have hid : a.session_id = b.session_id := memcmpBytes_eq_zero (by omega) h
      exact ssl_session_hash_take4 a b (by rw [hid])
  · exact ssl_session_hash_take4 a b

/-- Witness for C8 at two concrete equal sessions (differing in fields the
comparison ignores). -/
theorem session_equal_implies_hash_equal_witness :
    ssl_session_cmp ⟨771, [1, 2], 0, false, 5⟩ ⟨771, [1, 2], 7, true, 9⟩ = 0 ∧
    ssl_session_hash ⟨771, [1, 2], 0, false, 5⟩ =
      ssl_session_hash ⟨771, [1, 2], 7, true, 9⟩ :=
  ⟨by decide,
   (session_equal_implies_hash_equal ⟨771, [1, 2], 0, false, 5⟩
     ⟨771, [1, 2], 7, true, 9⟩).1 (by decide)⟩

/-! ## SSL_has_matching_session_id (claim C10) -/

/-- `SSL_has_matching_session_id` (ssl_lib.c): reject ids longer than the
session-id field, then build a probe session from the connection's current
protocol version and the id, and look it up in the cache.  The fields the
comparison never reads are left at defaults.  The hash-table retrieval
(`lh_SSL_SESSION_retrieve`, outside this repository) is modelled from the
spec as search keyed by `ssl_session_cmp` in the deduplicating cache. -/
def SSL_has_matching_session_id (version : Nat) (sessions : List SSLSession)
    (id : List Nat) : Bool :=
  if id.length > SSL_MAX_SSL_SESSION_ID_LENGTH then false
  else sessions.any (fun p => ssl_session_cmp ⟨version, id, 0, false, 0⟩ p == 0)

/-- Claim C10 (confirmed): an id longer than the 32-byte session-id field
makes the lookup return false without consulting the cache (the result is
false for every cache content). -/
theorem lookup_overlong_id_false (version : Nat) (sessions : List SSLSession)
    (id : List Nat) (h : id.length > SSL_MAX_SSL_SESSION_ID_LENGTH) :
    SSL_has_matching_session_id version sessions id = false := by
  unfold SSL_has_matching_session_id
  rw [if_pos h]

/-- Witness for C10 with a 33-byte id against a nonempty cache. -/
theorem lookup_overlong_id_false_witness :
    List.length (List.replicate 33 0) > SSL_MAX_SSL_SESSION_ID_LENGTH ∧
    SSL_has_matching_session_id 771 [⟨771, [1, 2, 3], 0, false, 0⟩]
      (List.replicate 33 0) = false :=
  ⟨by decide,
   lookup_overlong_id_false 771 [⟨771, [1, 2, 3], 0, false, 0⟩]
     (List.replicate 33 0) (by decide)⟩

/-! ## ssl_update_cache (claims C6, C7) -/

/-- Cache-mode and option bits from ssl.h. -/
def SSL_SESS_CACHE_CLIENT : Nat := 1
def SSL_SESS_CACHE_SERVER : Nat := 2
def SSL_SESS_CACHE_NO_AUTO_CLEAR : Nat := 0x80
def SSL_SESS_CACHE_NO_INTERNAL_STORE : Nat := 0x200
def SSL_VERIFY_PEER : Nat := 1
def SSL_OP_NO_TICKET : Nat := 0x4000
def SSL_OP_NO_ANTI_REPLAY : Nat := 0x1000000
def TLS1_3_VERSION : Nat := 0x0304

/-- The factory-side state `ssl_update_cache` touches: the cache-mode
bitmask, the session list, hook registration flags, and the two
good-handshake statistics counters. -/
structure SSLCtxState where
  session_cache_mode : Nat
  sessions : List SSLSession
  remove_session_cb : Bool
  new_session_cb : Bool
  sess_connect_good : Nat
  sess_accept_good : Nat
deriving Repr, DecidableEq

/-- The connection-side state `ssl_update_cache` reads. -/
structure SSLConn where
  server : Bool
  verify_mode : Nat
  hit : Bool
  version : Nat
  options : Nat
  max_early_data : Nat
  session : SSLSession
  session_ctx : SSLCtxState
deriving Repr, DecidableEq

/-- `SSL_CONNECTION_IS_TLS13`: the negotiated version is TLS 1.3 (DTLS
versions are distinct numbers, so comparing the version suffices). -/
def SSL_CONNECTION_IS_TLS13 (s : SSLConn) : Bool := s.version == TLS1_3_VERSION

/-- Modelled from the spec: `SSL_CTX_add_session` (ssl_sess.c, not part of
this repository) inserts the session into the deduplicating cache keyed by
(protocol version, session id), replacing an existing entry with the same
key. -/
def SSL_CTX_add_session (ctx : SSLCtxState) (sess : SSLSession) : SSLCtxState :=
  { ctx with
    sessions := sess :: ctx.sessions.filter (fun p => ssl_session_cmp sess p != 0) }

/-- Modelled from the spec: `SSL_CTX_flush_sessions_ex` (ssl_sess.c, not
part of this repository) removes every entry whose expiry timestamp has
passed the given time. -/
def SSL_CTX_flush_sessions_ex (ctx : SSLCtxState) (t : Nat) : SSLCtxState :=
  { ctx with sessions := ctx.sessions.filter (fun p => decide (t < p.expiry)) }

/-- `ssl_update_cache` (ssl_lib.c): skip sessions with an empty id or the
not-resumable flag, and server sessions with no application context under
mandatory peer verification; otherwise insert into the internal cache when
the mode bits intersect and the handshake is full (or the protocol is TLS
1.3), except for the server-side stateless-TLS1.3 exemption; finally, when
auto-clear is enabled and the full mode mask is satisfied, run the expiry
sweep whenever the low byte of the good-handshake counter is 0xff.  The
external new-session hook only manipulates reference counts, which the
cache-content model does not track.  Returns the updated factory state and
whether the sweep ran. -/
def ssl_update_cache (s : SSLConn) (mode : Nat) (now : Nat) :
    SSLCtxState × Bool :=
  if s.session.session_id.length = 0 ∨ s.session.not_resumable then
    (s.session_ctx, false)
  else if s.server ∧ s.session.sid_ctx_length = 0 ∧
      s.verify_mode &&& SSL_VERIFY_PEER ≠ 0 then
    (s.session_ctx, false)
  else
    let i := s.session_ctx.session_cache_mode
    let ctx1 :=
      if i &&& mode ≠ 0 ∧ (¬ s.hit ∨ SSL_CONNECTION_IS_TLS13 s) then
        if i &&& SSL_SESS_CACHE_NO_INTERNAL_STORE = 0 ∧
            (¬ SSL_CONNECTION_IS_TLS13 s ∨ ¬ s.server ∨
             (s.max_early_data > 0 ∧ s.options &&& SSL_OP_NO_ANTI_REPLAY = 0) ∨
             s.session_ctx.remove_session_cb ∨
             s.options &&& SSL_OP_NO_TICKET ≠ 0) then
          SSL_CTX_add_session s.session_ctx s.session
        else s.session_ctx
      else s.session_ctx
    if i &&& SSL_SESS_CACHE_NO_AUTO_CLEAR = 0 ∧ i &&& mode = mode then
      let stat := if mode &&& SSL_SESS_CACHE_CLIENT ≠ 0 then
        ctx1.sess_connect_good else ctx1.sess_accept_good
      if stat &&& 0xff = 0xff then (SSL_CTX_flush_sessions_ex ctx1 now, true)
      else (ctx1, false)
    else (ctx1, false)

/-! ## Claim C6 -/

/-- Claim C6 (confirmed): a session with an empty id or the not-resumable
flag is never inserted by `ssl_update_cache` — the factory state is
returned untouched — and starting from an empty cache no id is retrievable
afterwards. -/
theorem updateCache_never_caches_unresumable (s : SSLConn) (mode now : Nat)
    (id : List Nat)
    (h : s.session.session_id.length = 0 ∨ s.session.not_resumable = true) :
    (ssl_update_cache s mode now).1 = s.session_ctx ∧
    (s.session_ctx.sessions = [] →
      SSL_has_matching_session_id s.version
        (ssl_update_cache s mode now).1.sessions id = false) := by
  have h1 : (ssl_update_cache s mode now).1 = s.session_ctx := by
    unfold ssl_update_cache
    rw [if_pos h]
  refine ⟨h1, fun hempty => ?_⟩
  rw [h1, hempty]
  unfold SSL_has_matching_session_id
  split <;> rfl

/-- Witness for C6: a zero-length-id session on an empty cache. -/
theorem updateCache_never_caches_unresumable_witness :
    (ssl_update_cache
      ⟨false, 0, false, 771, 0, 0, ⟨771, [], 0, false, 9⟩,
        ⟨3, [], false, false, 0, 0⟩⟩ 1 0).1 =
      (⟨3, [], false, false, 0, 0⟩ : SSLCtxState) ∧
    SSL_has_matching_session_id 771
      (ssl_update_cache
        ⟨false, 0, false, 771, 0, 0, ⟨771, [], 0, false, 9⟩,
          ⟨3, [], false, false, 0, 0⟩⟩ 1 0).1.sessions [5] = false :=
  ⟨(updateCache_never_caches_unresumable
      ⟨false, 0, false, 771, 0, 0, ⟨771, [], 0, false, 9⟩,
        ⟨3, [], false, false, 0, 0⟩⟩ 1 0 [5] (by decide)).1,
   (updateCache_never_caches_unresumable
      ⟨false, 0, false, 771, 0, 0, ⟨771, [], 0, false, 9⟩,
        ⟨3, [], false, false, 0, 0⟩⟩ 1 0 [5] (by decide)).2 rfl⟩

/-! ## Claim C7 -/

/-- Claim C7 (corrected), amended part: when the session passes the early
guards, auto-sweep is not disabled, and the full cache-mode bitmask is
satisfied, `ssl_update_cache` runs the expiry sweep exactly when the low
byte of the relevant good-handshake counter equals 0xff — that is, once
every 256 (not 255) successful handshakes. -/
theorem updateCache_sweep_every_256 (s : SSLConn) (mode now : Nat)
    (h1 : ¬ (s.session.session_id.length = 0 ∨ s.session.not_resumable = true))
    (h2 : ¬ (s.server = true ∧ s.session.sid_ctx_length = 0 ∧
          s.verify_mode &&& SSL_VERIFY_PEER ≠ 0))
    (h3 : s.session_ctx.session_cache_mode &&& SSL_SESS_CACHE_NO_AUTO_CLEAR = 0)
    (h4 : s.session_ctx.session_cache_mode &&& mode = mode) :
    ((ssl_update_cache s mode now).2 = true ↔
      (if mode &&& SSL_SESS_CACHE_CLIENT ≠ 0 then s.session_ctx.sess_connect_good
       else s.session_ctx.sess_accept_good) &&& 0xff = 0xff) := by
  unfold ssl_update_cache
  rw [if_neg h1, if_neg h2]
  dsimp only
  rw [if_pos ⟨h3, h4⟩]
  split_ifs <;> simp_all [SSL_CTX_add_session, SSL_CTX_flush_sessions_ex]

/-- Witness for C7's amended theorem at a concrete server connection. -/
theorem updateCache_sweep_every_256_witness :
    (ssl_update_cache
      ⟨true, 0, false, 0x0303, 0, 0, ⟨0x0303, [9], 1, false, 1000⟩,
        ⟨2, [], false, false, 0, 255⟩⟩ SSL_SESS_CACHE_SERVER 0).2 = true ↔
      (if SSL_SESS_CACHE_SERVER &&& SSL_SESS_CACHE_CLIENT ≠ 0 then
        (⟨2, [], false, false, 0, 255⟩ : SSLCtxState).sess_connect_good
       else (⟨2, [], false, false, 0, 255⟩ : SSLCtxState).sess_accept_good) &&&
        0xff = 0xff :=
  updateCache_sweep_every_256
    ⟨true, 0, false, 0x0303, 0, 0, ⟨0x0303, [9], 1, false, 1000⟩,
      ⟨2, [], false, false, 0, 255⟩⟩ SSL_SESS_CACHE_SERVER 0
    (by decide) (by decide) (by decide) (by decide)

/-- Claim C7 counterexample: the sweep fires at counter value 255, does not
fire at 510 = 255 + 255, and fires again only at 511 — the period is 256
successful handshakes, not 255. -/
theorem updateCache_sweep_period_counterexample :
    (ssl_update_cache
      ⟨true, 0, false, 0x0303, 0, 0, ⟨0x0303, [9], 1, false, 1000⟩,
        ⟨2, [], false, false, 0, 255⟩⟩ SSL_SESS_CACHE_SERVER 0).2 = true ∧
    (ssl_update_cache
      ⟨true, 0, false, 0x0303, 0, 0, ⟨0x0303, [9], 1, false, 1000⟩,
        ⟨2, [], false, false, 0, 510⟩⟩ SSL_SESS_CACHE_SERVER 0).2 = false ∧
    (ssl_update_cache
      ⟨true, 0, false, 0x0303, 0, 0, ⟨0x0303, [9], 1, false, 1000⟩,
        ⟨2, [], false, false, 0, 511⟩⟩ SSL_SESS_CACHE_SERVER 0).2 = true := by
  decide

/-! ## SSL_read_early_data (claim C9) -/

def SSL_READ_EARLY_DATA_ERROR : Nat := 0
def SSL_READ_EARLY_DATA_SUCCESS : Nat := 1
def SSL_READ_EARLY_DATA_FINISH : Nat := 2
def SSL_EARLY_DATA_ACCEPTED : Nat := 2

/-- The per-connection early-data state variable. -/
inductive EarlyDataState where
  | none
  | connectRetry
  | acceptRetry
  | connecting
  | accepting
  | writeRetry
  | writing
  | writeFlush
  | readRetry
  | reading
  | finishedReading
  | unauthWriting
deriving Repr, DecidableEq

/-- The connection state `SSL_read_early_data` reads: role, the early-data
state variable, whether the connection is still in its pre-handshake state
(`SSL_in_before`, a state-machine collaborator), and the negotiated
early-data status (`sc->ext.early_data`). -/
structure ReadEarlyConn where
  server : Bool
  early_data_state : EarlyDataState
  in_before : Bool
  ext_early_data : Nat
deriving Repr, DecidableEq

/-- Results of the collaborator calls nested inside `SSL_read_early_data`:
the `SSL_accept` outcome, the `SSL_read_ex` outcome with its byte count,
and the value the handshake layer leaves in the early-data state variable
during that read (it moves it to FINISHED_READING on an EndOfEarlyData
message). -/
structure ReadEarlyOracle where
  accept_ret : Int
  read_ret : Int
  read_bytes : Nat
  state_after_read : EarlyDataState
deriving Repr, DecidableEq

/-- What one `SSL_read_early_data` call produces: the return code, the final
early-data state, the value stored through `readbytes` (`none` when the out
parameter is not written), and whether a should-not-have-been-called error
was raised. -/
structure ReadEarlyOut where
  ret : Nat
  state : EarlyDataState
  readbytes : Option Nat
  raisedShouldNotBeCalled : Bool
deriving Repr, DecidableEq

/-- The READ_RETRY arm of `SSL_read_early_data`: with early data accepted,
move to READING, run `SSL_read_ex`, and either hand data back (returning to
READ_RETRY) or finish; with early data not accepted, finish immediately. -/
def readEarlyDataReadRetry (s : ReadEarlyConn) (o : ReadEarlyOracle) : ReadEarlyOut :=
  if s.ext_early_data = SSL_EARLY_DATA_ACCEPTED then
    if o.read_ret > 0 ∨ (¬ o.read_ret > 0 ∧ o.state_after_read ≠ .finishedReading) then
      { ret := if o.read_ret > 0 then SSL_READ_EARLY_DATA_SUCCESS
               else SSL_READ_EARLY_DATA_ERROR
        state := .readRetry
        readbytes := if o.read_ret > 0 then some o.read_bytes else none
        raisedShouldNotBeCalled := false }
    else
      { ret := SSL_READ_EARLY_DATA_FINISH
        state := o.state_after_read
        readbytes := some 0
        raisedShouldNotBeCalled := false }
  else
    { ret := SSL_READ_EARLY_DATA_FINISH
      state := .finishedReading
      readbytes := some 0
      raisedShouldNotBeCalled := false }

/-- The ACCEPT arm of `SSL_read_early_data`: move to ACCEPTING, run
`SSL_accept`, fall back to ACCEPT_RETRY when it would block, otherwise fall
through to the READ_RETRY arm. -/
def readEarlyDataAccept (s : ReadEarlyConn) (o : ReadEarlyOracle) : ReadEarlyOut :=
  if o.accept_ret ≤ 0 then
    { ret := SSL_READ_EARLY_DATA_ERROR
      state := .acceptRetry
      readbytes := none
      raisedShouldNotBeCalled := false }
  else readEarlyDataReadRetry s o

/-- `SSL_read_early_data` (ssl_lib.c): reject non-server connections
outright; from NONE require the pre-handshake state and fall through to the
accept arm; from ACCEPT_RETRY retry the accept arm; from READ_RETRY run the
read arm; any other state is a contract violation. -/
def SSL_read_early_data (s : ReadEarlyConn) (o : ReadEarlyOracle) : ReadEarlyOut :=
  if ¬ s.server then
    { ret := SSL_READ_EARLY_DATA_ERROR
      state := s.early_data_state
      readbytes := none
      raisedShouldNotBeCalled := true }
  else
    match s.early_data_state with
    | .none =>
      if ¬ s.in_before then
        { ret := SSL_READ_EARLY_DATA_ERROR
          state := s.early_data_state
          readbytes := none
          raisedShouldNotBeCalled := true }
      else readEarlyDataAccept s o
    | .acceptRetry => readEarlyDataAccept s o
    | .readRetry => readEarlyDataReadRetry s o
    | _ =>
      { ret := SSL_READ_EARLY_DATA_ERROR
        state := s.early_data_state
        readbytes := none
        raisedShouldNotBeCalled := true }

/-! ## Claim C9 -/

/-- Claim C9 (confirmed): on a connection that is not a server,
`SSL_read_early_data` always returns the Error result with a
should-not-have-been-called failure — whatever the early-data state and the
collaborator outcomes — and leaves the early-data state variable
unchanged. -/
theorem read_early_data_client_always_error (s : ReadEarlyConn)
    (o : ReadEarlyOracle) (h : s.server = false) :
    (SSL_read_early_data s o).ret = SSL_READ_EARLY_DATA_ERROR ∧
    (SSL_read_early_data s o).raisedShouldNotBeCalled = true ∧
    (SSL_read_early_data s o).state = s.early_data_state := by
  unfold SSL_read_early_data
  rw [if_pos (by simp [h])]
  exact ⟨rfl, rfl, rfl⟩

/-- Witness for C9 at a concrete client-side connection in READING state. -/
theorem read_early_data_client_always_error_witness :
    (SSL_read_early_data ⟨false, .reading, true, 2⟩ ⟨1, 1, 5, .reading⟩).ret =
      SSL_READ_EARLY_DATA_ERROR ∧
    (SSL_read_early_data ⟨false, .reading, true, 2⟩
      ⟨1, 1, 5, .reading⟩).raisedShouldNotBeCalled = true ∧
    (SSL_read_early_data ⟨false, .reading, true, 2⟩ ⟨1, 1, 5, .reading⟩).state =
      EarlyDataState.reading :=
  read_early_data_client_always_error ⟨false, .reading, true, 2⟩
    ⟨1, 1, 5, .reading⟩ (by decide)

/-! ## SSL_dup (claim C3) -/

/-- The connection state `SSL_dup` consults: the atomic reference count,
the two handshake-state predicates (`SSL_in_init`, `SSL_in_before`),
whether a session is attached, and the configuration the copy path
mirrors. -/
structure DupConn where
  references : Nat
  in_init : Bool
  in_before : Bool
  hasSession : Bool
  server : Bool
  version : Nat
  options : Nat
deriving Repr, DecidableEq

/-- What `SSL_dup` hands back: the very same object with a bumped count
(`same`, carrying the session refcount unchanged), a freshly allocated
object (`fresh`, carrying the session refcount after sharing), or NULL on
allocation failure. -/
inductive DupResult where
  | same (s : DupConn) (sessionRefs : Nat)
  | fresh (t : DupConn) (sessionRefs : Nat)
  | fail
deriving Repr, DecidableEq

/-- `SSL_dup` (ssl_lib.c): "If we're not quiescent, just up_ref!" — when
the connection is not in its initial pre-handshake state (`!SSL_in_init ||
!SSL_in_before`), increment the reference count and return the same object.
Otherwise allocate a fresh connection from the same factory (`SSL_new`,
reference count 1), share the session via reference increment when one is
set (`SSL_copy_session_id`), and mirror role/version/options.
`sessionRefs` is the attached session object's reference count; `newOk` is
the allocation oracle for the copy path. -/
def SSL_dup (s : DupConn) (sessionRefs : Nat) (newOk : Bool) : DupResult :=
  if ¬ s.in_init ∨ ¬ s.in_before then
    .same { s with references := s.references + 1 } sessionRefs
  else if ¬ newOk then .fail
  else
    .fresh
      { references := 1
        in_init := true
        in_before := true
        hasSession := s.hasSession
        server := s.server
        version := s.version
        options := s.options }
      (if s.hasSession then sessionRefs + 1 else sessionRefs)

/-! ## Claim C3 -/

/-- Claim C3 (corrected), amended part: `duplicate` on a connection that
has left its initial pre-handshake state (handshake begun or completed)
returns a second reference to the same object with the count bumped by one
and no new allocation; `duplicate` on a connection still in its initial
pre-handshake state returns a distinct newly allocated object, reference
count 1, sharing the session (when present) via reference increment. -/
theorem dup_upref_or_copy (s : DupConn) (sessionRefs : Nat) (newOk : Bool) :
    (¬ (s.in_init = true ∧ s.in_before = true) →
      SSL_dup s sessionRefs newOk =
        .same { s with references := s.references + 1 } sessionRefs) ∧
    (s.in_init = true → s.in_before = true → newOk = true →
      SSL_dup s sessionRefs newOk =
        .fresh ⟨1, true, true, s.hasSession, s.server, s.version, s.options⟩
          (if s.hasSession then sessionRefs + 1 else sessionRefs)) := by
  constructor
  · intro h
    unfold SSL_dup
    rw [if_pos (by tauto)]
  · intro h1 h2 h3
    unfold SSL_dup
    rw [if_neg (by simp [h1, h2]), if_neg (by simp [h3])]

/-- Witness for C3's amended theorem: a completed-handshake connection gets
up-ref'd; a freshly created one gets copied with the session shared. -/
theorem dup_upref_or_copy_witness :
    SSL_dup ⟨1, false, false, true, true, 771, 0⟩ 1 true =
      .same ⟨2, false, false, true, true, 771, 0⟩ 1 ∧
    SSL_dup ⟨1, true, true, true, false, 771, 0⟩ 1 true =
      .fresh ⟨1, true, true, true, false, 771, 0⟩ 2 :=
  ⟨(dup_upref_or_copy ⟨1, false, false, true, true, 771, 0⟩ 1 true).1 (by decide),
   (dup_upref_or_copy ⟨1, true, true, true, false, 771, 0⟩ 1 true).2 rfl rfl rfl⟩

/-- Claim C3 counterexample: a mid-handshake connection (`SSL_in_init` set,
`SSL_in_before` clear) is handed back as the same object with its count
bumped — not as a distinct newly allocated connection as the claim
states. -/
theorem dup_midhandshake_counterexample :
    SSL_dup ⟨1, true, false, true, true, 771, 0⟩ 1 true =
      .same ⟨2, true, false, true, true, 771, 0⟩ 1 := by
  decide
